import Mathlib

/-!
Shallow embedding of the change-point detection and impact-analysis core of
the repository (Module/ChangePointDetector.py and Module/ChangePointAnalyzer.py).

Conventions of the embedding:
* pandas rows `(year, series_id, value)` become `DataRow` records; `value`
  (a Python/numpy float) is modelled as an exact rational `Rat`;
* numpy float predicates `std == 0` are modelled by the equivalent exact
  predicate "the sum of squared deviations is 0" (a nonnegative float square
  root is zero exactly when its argument is zero);
* `np.argmax` over an array returns the first index attaining the maximum,
  modelled by `List.findIdx` against the maximum value;
* external library calls (the `ruptures` fit/predict and the
  `bayesian_changepoint_detection` posterior) are modelled as explicit
  function parameters: a per-series `Except` valued oracle for `ruptures`
  (its `error` case is the exception path of the Python `try`), and the
  marginal-probability vector as a plain input for the Bayesian detector;
* the scipy t-test p-values are likewise oracle parameters (their numeric
  values decide no claim under verification);
* Python `round(x, 2)` display rounding of report fields is omitted; the
  claims under verification do not depend on it.
-/

/-- One row of the `(year, series_id, value)` input table
    (the output of ChangePointPreparer). -/
structure DataRow where
  year : Int
  series_id : String
  value : Rat
deriving DecidableEq, Repr

/-- One row of the detector output table built in `detect_ruptures`,
    `detect_cusum` and `detect_bayesian`.  The per-algorithm diagnostic
    columns (`cusum_values`, `probs`) are omitted: they are plot-only
    payloads that no downstream computation reads. -/
structure DetectionRow where
  series_id : String
  algorithm : String
  detected_years : List Int
  hit_target : Bool
  hit_year : Option Int
deriving DecidableEq, Repr

/-- the pandas unique call on the series_id column: series identifiers in order of first
    appearance. -/
def unique_series (data : List DataRow) : List String :=
  data.foldl (fun acc r => if r.series_id ∈ acc then acc else acc ++ [r.series_id]) []

/-- Insertion step of the ascending-by-year sort. -/
def insertByYear (r : DataRow) : List DataRow → List DataRow
  | [] => [r]
  | x :: xs => if r.year ≤ x.year then r :: x :: xs else x :: insertByYear r xs

/-- Ascending sort by year.  Years are unique within a series, so this is
    the unique ascending ordering the pandas sort by year produces. -/
def sortByYear : List DataRow → List DataRow
  | [] => []
  | x :: xs => insertByYear x (sortByYear xs)

/-- Embedding of `_get_signal`: the rows of one series, sorted ascending by year
    (the pandas sort by year; years are unique within a series). -/
def get_series (data : List DataRow) (sid : String) : List DataRow :=
  sortByYear (data.filter (fun r => r.series_id = sid))

/-- Embedding of `np.mean` (0 on the empty list, where numpy would give nan). -/
def npMean (l : List Rat) : Rat := l.sum / (l.length : Rat)

/-- Sum of squared deviations from the mean; `np.std(l) == 0` exactly when
    this vanishes. -/
def sqDevSum (l : List Rat) : Rat :=
  (l.map (fun x => (x - npMean l) ^ 2)).sum

/-- Embedding of `np.var(l, ddof=1)` (sample variance; 0 where numpy would give nan,
    i.e. on lists of fewer than two elements). -/
def sampleVar (l : List Rat) : Rat :=
  (l.map (fun x => (x - npMean l) ^ 2)).sum / ((l.length : Rat) - 1)

/-- Embedding of `np.cumsum` starting from accumulator `acc`. -/
def cumsumFrom (acc : Rat) : List Rat → List Rat
  | [] => []
  | x :: xs => (acc + x) :: cumsumFrom (acc + x) xs

/-- Embedding of `np.cumsum`. -/
def np_cumsum (l : List Rat) : List Rat := cumsumFrom 0 l

/-- The maximum of the absolute values of a list (0 on the empty list;
    absolute values are nonnegative, so the 0 seed never exceeds an
    attained maximum). -/
def maxAbs (l : List Rat) : Rat := (l.map (fun x => |x|)).foldr max 0

/-- Embedding of `np.argmax(np.abs(l))`: the first index whose absolute value attains
    the maximum absolute value of the list. -/
def np_argmax_abs (l : List Rat) : Nat :=
  l.findIdx (fun x => decide (maxAbs l ≤ |x|))

/-- Embedding of `check_target_hit`: scan the detected years in list order; return
    `(True, y)` at the first `y` within `tolerance` of `target_year`,
    `(False, None)` if none is. -/
def check_target_hit (target tol : Int) : List Int → Bool × Option Int
  | [] => (false, none)
  | y :: ys => if |y - target| ≤ tol then (true, some y) else check_target_hit target tol ys

/-- Embedding of `_map_indices_to_years`: keep the indices `idx` with
    `0 < idx <= n_samples` and map each to `years_arr[idx-1]`. -/
def map_indices_to_years (indices : List Nat) (years_arr : List Int) : List Int :=
  indices.filterMap (fun idx =>
    if 0 < idx ∧ idx ≤ years_arr.length then years_arr.get? (idx - 1) else none)

/-- The two `detect_ruptures` post-processing lines: drop the end sentinel
    (`bkps = [x for x in bkps if x < len(signal)]`, `n` being the common
    length of `signal` and `years`) and map the survivors to years. -/
def ruptures_emit (n : Nat) (bkps : List Nat) (years : List Int) : List Int :=
  map_indices_to_years (bkps.filter (fun x => decide (x < n))) years

/-- The `DetectionRow` appended by `detect_ruptures` for one series. -/
def ruptures_row (target tol : Int) (algoName sid : String) (bkps : List Nat)
    (n : Nat) (years : List Int) : DetectionRow :=
  let dy := ruptures_emit n bkps years
  let ht := check_target_hit target tol dy
  ⟨sid, algoName, dy, ht.1, ht.2⟩

/-- Embedding of `detect_ruptures`.  The `ruptures` library fit/predict (and the
    `ValueError` branch for an unknown method) sit inside the Python
    `try`; they are modelled by the oracle `algoF`, whose `error` case is
    the exception path, answered by `continue` (no row for this series). -/
def detect_ruptures (algoF : String → List Rat → Except String (List Nat))
    (algoName : String) (target tol : Int) (width : Nat) (data : List DataRow) :
    List DetectionRow :=
  (unique_series data).filterMap (fun sid =>
    let rows := get_series data sid
    let signal := rows.map (fun r => r.value)
    let years := rows.map (fun r => r.year)
    if signal.length < width then none
    else
      match algoF sid signal with
      | .error _ => none
      | .ok bkps => some (ruptures_row target tol algoName sid bkps signal.length years))

/-- The per-series body of `detect_cusum`: centre the signal at its mean,
    take the cumulative sum, and find (the first) index of largest
    absolute cumulative deviation; if `np.std(signal) == 0` emit no year,
    otherwise emit the single year `years[max_idx]`. -/
def cusum_detect_years (signal : List Rat) (years : List Int) : List Int :=
  let s := signal.map (fun x => x - npMean signal)
  let cusum := np_cumsum s
  let max_idx := np_argmax_abs cusum
  if sqDevSum signal = 0 then [] else [years.getD max_idx 0]

/-- Embedding of `detect_cusum`: one `DetectionRow` per series with at least 3 points. -/
def detect_cusum (target tol : Int) (data : List DataRow) : List DetectionRow :=
  (unique_series data).filterMap (fun sid =>
    let rows := get_series data sid
    let signal := rows.map (fun r => r.value)
    let years := rows.map (fun r => r.year)
    if signal.length < 3 then none
    else
      let dy := cusum_detect_years signal years
      let ht := check_target_hit target tol dy
      some ⟨sid, "CUSUM_Mean", dy, ht.1, ht.2⟩)

/-- Modelled from the spec: the break year the specification assigns to the
    CUSUM detector, `year[argmax_i |v[i]-v[i-1]| + 1]` — the year right
    after the largest absolute first difference of the raw values.  The
    source computes something else; this definition exists only to be
    compared against `cusum_detect_years`. -/
def cusum_spec_year (signal : List Rat) (years : List Int) : Int :=
  let diffs := (signal.zip signal.tail).map (fun p => p.2 - p.1)
  years.getD (np_argmax_abs diffs + 1) 0

/-- Embedding of the `detect_bayesian` post-processing of the library marginal
    probabilities: `detected_indices = np.where(probs[1:-1] > 0.3)[0] + 1`
    (`np.where` returns the indices with the property, in order), then
    `_map_indices_to_years`. -/
def bayes_emit (probs : List Rat) (years : List Int) : List Int :=
  let interior := (probs.drop 1).dropLast
  let detected_indices :=
    (((List.range interior.length).filter
        (fun i => decide ((3 : Rat) / 10 < interior.getD i 0))).map (fun i => i + 1))
  map_indices_to_years detected_indices years

/-- Embedding of `_calculate_cohens_d`.  Here `group1` is the pre segment, `group2` the post
    segment.  The float comparisons `std1 == 0` and `pooled_std == 0` are
    modelled by the equivalent variance tests (the variances are
    nonnegative, and a nonnegative square root vanishes exactly with its
    argument). -/
noncomputable def cohens_d (group1 group2 : List Rat) : Real :=
  let n1 := group1.length
  let n2 := group2.length
  let mean1 := npMean group1
  let mean2 := npMean group2
  let var1 := sampleVar group1
  let var2 := sampleVar group2
  if n1 < 2 then 0
  else if n2 = 1 then
    if var1 = 0 then 0 else ((mean2 - mean1 : Rat) : Real) / Real.sqrt (var1 : Real)
  else
    let pooled_var : Rat :=
      (((n1 : Rat) - 1) * var1 + ((n2 : Rat) - 1) * var2) / ((n1 : Rat) + (n2 : Rat) - 2)
    if pooled_var = 0 then 0
    else ((mean2 - mean1 : Rat) : Real) / Real.sqrt (pooled_var : Real)

/-- Modelled from the spec: the effect size exactly as §4.5 words it,
    branching only on the size of the post segment (the spec never
    mentions the source guard for a one-point pre segment).  Exists only
    to be compared against `cohens_d`. -/
noncomputable def cohens_d_spec (group1 group2 : List Rat) : Real :=
  let n1 := group1.length
  let n2 := group2.length
  let mean1 := npMean group1
  let mean2 := npMean group2
  let var1 := sampleVar group1
  let var2 := sampleVar group2
  if n2 = 1 then
    if var1 = 0 then 0 else ((mean2 - mean1 : Rat) : Real) / Real.sqrt (var1 : Real)
  else
    let pooled_var : Rat :=
      (((n1 : Rat) - 1) * var1 + ((n2 : Rat) - 1) * var2) / ((n1 : Rat) + (n2 : Rat) - 2)
    if pooled_var = 0 then 0
    else ((mean2 - mean1 : Rat) : Real) / Real.sqrt (pooled_var : Real)

/-- Embedding of `_interpret_effect_size`: the qualitative magnitude bands on `|d|`.
    The source returns the Vietnamese labels; the spec names them
    Negligible / Weak / Medium / Strong in that order. -/
noncomputable def interpret_effect_size (d_value : Real) : String :=
  if |d_value| < 2 / 10 then "Không đáng kể"
  else if |d_value| < 5 / 10 then "Yếu (Weak)"
  else if |d_value| < 8 / 10 then "Vừa (Medium)"
  else "Mạnh (Strong)"

/-- One row of the summary table built by `analyze_impact`.  `delta_pct`
    is an `Option`: the Python float `((mean_post - mean_pre)/mean_pre)*100`
    is non-finite (inf or nan) exactly when `mean_pre = 0`, modelled as
    `none`. -/
structure ImpactRecord where
  series_id : String
  break_point : Int
  mean_pre : Rat
  mean_post : Rat
  delta_pct : Option Rat
  p_value : Rat
  significant : Bool
  cohen_d : Real
  magnitude : String

/-- The pre-break values of a series: `year < cp_year`. -/
def preVals (data : List DataRow) (sid : String) (cp : Int) : List Rat :=
  ((get_series data sid).filter (fun r => decide (r.year < cp))).map (fun r => r.value)

/-- The post-break values of a series: `year >= cp_year`. -/
def postVals (data : List DataRow) (sid : String) (cp : Int) : List Rat :=
  ((get_series data sid).filter (fun r => decide (cp ≤ r.year))).map (fun r => r.value)

/-- The body of the `analyze_impact` loop for one detection row.  The two
    scipy t-tests are the oracles `tt1` (one-sample, given the pre data
    and the post mean) and `tt2` (Welch two-sample), each returning the
    p-value; `row.hit_year` is always present on a hit row produced by the
    detectors (on a malformed row Python would raise in `int(None)`).
    The `var_pre` / `var_post` locals of the source are not part of the
    emitted record and are dropped. -/
noncomputable def impact_of_row (tt1 : List Rat → Rat → Rat) (tt2 : List Rat → List Rat → Rat)
    (data : List DataRow) (row : DetectionRow) : Option ImpactRecord :=
  match row.hit_year with
  | none => none
  | some cp =>
    if get_series data row.series_id = [] then none
    else
      let pre_data := preVals data row.series_id cp
      let post_data := postVals data row.series_id cp
      if pre_data = [] ∨ post_data = [] then none
      else
        let mean_pre := npMean pre_data
        let mean_post := npMean post_data
        let p_val := if post_data.length = 1 then tt1 pre_data mean_post else tt2 pre_data post_data
        let d_val := cohens_d pre_data post_data
        some
          { series_id := row.series_id
            break_point := cp
            mean_pre := mean_pre
            mean_post := mean_post
            delta_pct :=
              if mean_pre = 0 then none else some ((mean_post - mean_pre) / mean_pre * 100)
            p_value := p_val
            significant := decide (p_val < 5 / 100)
            cohen_d := d_val
            magnitude := interpret_effect_size d_val }

/-- Embedding of `analyze_impact`: keep the rows with `hit_target == True` and run the
    loop body on each, collecting the emitted records. -/
noncomputable def analyze_impact (tt1 : List Rat → Rat → Rat) (tt2 : List Rat → List Rat → Rat)
    (data : List DataRow) (detected_results : List DetectionRow) : List ImpactRecord :=
  (detected_results.filter (fun r => r.hit_target)).filterMap (impact_of_row tt1 tt2 data)

theorem cumsumFrom_length (acc : Rat) (l : List Rat) :
    (cumsumFrom acc l).length = l.length := by
  induction l generalizing acc with
  | nil => rfl
  | cons x xs ih => simp [cumsumFrom, ih]

theorem np_cumsum_length (l : List Rat) : (np_cumsum l).length = l.length :=
  cumsumFrom_length 0 l

theorem maxAbs_cons (x : Rat) (l : List Rat) : maxAbs (x :: l) = max |x| (maxAbs l) := by
  simp [maxAbs]

theorem le_maxAbs_of_mem {l : List Rat} {x : Rat} (hx : x ∈ l) : |x| ≤ maxAbs l := by
  induction l with
  | nil => cases hx
  | cons a as ih =>
    rw [maxAbs_cons]
    rcases List.mem_cons.mp hx with rfl | hmem
    · exact le_max_left _ _
    · exact (ih hmem).trans (le_max_right _ _)

theorem exists_abs_eq_maxAbs {l : List Rat} (h : l ≠ []) : ∃ x ∈ l, |x| = maxAbs l := by
  induction l with
  | nil => exact absurd rfl h
  | cons a as ih =>
    rw [maxAbs_cons]
    rcases List.eq_nil_or_concat as with rfl | hne
    · refine ⟨a, List.mem_singleton.mpr rfl, ?_⟩
      simp [maxAbs, max_eq_left (abs_nonneg a)]
    · have hasne : as ≠ [] := by rcases hne with ⟨l2, b, rfl⟩; simp
      rcases ih hasne with ⟨y, hy, hyeq⟩
      rcases le_total |a| (maxAbs as) with hle | hle
      · exact ⟨y, List.mem_cons_of_mem _ hy, by rw [hyeq, max_eq_right hle]⟩
      · exact ⟨a, List.mem_cons_self _ _, by rw [max_eq_left hle]⟩

theorem np_argmax_abs_spec (l : List Rat) (hne : l ≠ []) :
    np_argmax_abs l < l.length ∧
    (∀ j, j < l.length → |l.getD j 0| ≤ |l.getD (np_argmax_abs l) 0|) ∧
    (∀ j, j < np_argmax_abs l → |l.getD j 0| < |l.getD (np_argmax_abs l) 0|) := by
  rcases exists_abs_eq_maxAbs hne with ⟨x, hx, hxeq⟩
  have hex : ∃ y ∈ l, (fun z => decide (maxAbs l ≤ |z|)) y = true :=
    ⟨x, hx, by simp [hxeq]⟩
  have hlt : l.findIdx (fun z => decide (maxAbs l ≤ |z|)) < l.length :=
    List.findIdx_lt_length_of_exists hex
  have hilt : np_argmax_abs l < l.length := hlt
  have hgetD : l.getD (np_argmax_abs l) 0 = l.get ⟨np_argmax_abs l, hilt⟩ := by
    simp [List.getD_eq_getElem?_getD, List.getElem?_eq_getElem hilt]
  have hp : maxAbs l ≤ |l.get ⟨np_argmax_abs l, hilt⟩| := by
    have := @List.findIdx_getElem _ (fun z => decide (maxAbs l ≤ |z|)) l hlt
    simpa using this
  have hattain : |l.get ⟨np_argmax_abs l, hilt⟩| = maxAbs l :=
    le_antisymm (le_maxAbs_of_mem (l.get_mem _ _)) hp
  refine ⟨hilt, ?_, ?_⟩
  · intro j hj
    have hjD : l.getD j 0 = l.get ⟨j, hj⟩ := by
      simp [List.getD_eq_getElem?_getD, List.getElem?_eq_getElem hj]
    rw [hjD, hgetD, hattain]
    exact le_maxAbs_of_mem (l.get_mem _ _)
  · intro j hj
    have hjlen : j < l.length := lt_trans hj hilt
    have hjD : l.getD j 0 = l.get ⟨j, hjlen⟩ := by
      simp [List.getD_eq_getElem?_getD, List.getElem?_eq_getElem hjlen]
    have hnp := @List.not_of_lt_findIdx _ (fun z => decide (maxAbs l ≤ |z|)) l j hj
    have : ¬ (maxAbs l ≤ |l.get ⟨j, hjlen⟩|) := by simpa using hnp
    rw [hjD, hgetD, hattain]
    exact lt_of_not_le this

theorem cusum_list_ne_nil {signal : List Rat} (h3 : 3 ≤ signal.length) :
    np_cumsum (signal.map (fun x => x - npMean signal)) ≠ [] := by
  have hlen : (np_cumsum (signal.map (fun x => x - npMean signal))).length = signal.length := by
    rw [np_cumsum_length, List.length_map]
  intro hnil
  rw [hnil] at hlen
  simp at hlen
  omega

/-- C1 (amended): for an eligible series (>= 3 points), `detect_cusum`
    emits zero detected years when the signal has zero standard deviation,
    and otherwise exactly one detected year, namely the year at the first
    index of largest absolute cumulative deviation of the mean-centred
    signal — not the year following the largest absolute first difference
    of the raw values that the claim states. -/
theorem cusum_emission (signal : List Rat) (years : List Int)
    (hlen : signal.length = years.length) (h3 : 3 ≤ signal.length) :
    (sqDevSum signal = 0 → cusum_detect_years signal years = []) ∧
    (sqDevSum signal ≠ 0 →
      ∃ i, i < years.length ∧
        cusum_detect_years signal years = [years.getD i 0] ∧
        (∀ j, j < years.length →
          |(np_cumsum (signal.map (fun x => x - npMean signal))).getD j 0| ≤
            |(np_cumsum (signal.map (fun x => x - npMean signal))).getD i 0|) ∧
        (∀ j, j < i →
          |(np_cumsum (signal.map (fun x => x - npMean signal))).getD j 0| <
            |(np_cumsum (signal.map (fun x => x - npMean signal))).getD i 0|)) := by
  constructor
  · intro h0
    simp [cusum_detect_years, h0]
  · intro hne
    have hcne := cusum_list_ne_nil h3
    have hclen : (np_cumsum (signal.map (fun x => x - npMean signal))).length = years.length := by
      rw [np_cumsum_length, List.length_map, hlen]
    rcases np_argmax_abs_spec _ hcne with ⟨hidx, hmaxall, hfirst⟩
    refine ⟨np_argmax_abs (np_cumsum (signal.map (fun x => x - npMean signal))), ?_, ?_, ?_, ?_⟩
    · rw [← hclen]; exact hidx
    · simp [cusum_detect_years, hne]
    · intro j hj
      exact hmaxall j (by rw [hclen]; exact hj)
    · intro j hj
      exact hfirst j hj

/-- C1 counterexample: the claim fails on the code twice over.  A constant
    eligible series emits zero detected years (the claim says never zero),
    and for `values = [0,0,0,10]` over `2022..2025` the emitted year is
    2024 (`argmax` of the absolute cumulative deviation), while the year
    after the largest absolute raw first difference — the formula of the claim,
    `cusum_spec_year` — is 2025. -/
theorem cusum_claim_counterexample :
    (detect_cusum 2025 1
        [⟨2022, "s", 5⟩, ⟨2023, "s", 5⟩, ⟨2024, "s", 5⟩]).map
        (fun r => r.detected_years) = [[]] ∧
    (detect_cusum 2025 1
        [⟨2022, "t", 0⟩, ⟨2023, "t", 0⟩, ⟨2024, "t", 0⟩, ⟨2025, "t", 10⟩]).map
        (fun r => r.detected_years) = [[2024]] ∧
    cusum_spec_year [0, 0, 0, 10] [2022, 2023, 2024, 2025] = 2025 ∧
    (2024 : Int) ≠ 2025 := by
  have habs1 : |(-(5 : Rat)/2)| = 5/2 := by rw [abs_of_nonpos] <;> norm_num
  have habs2 : |(-5 : Rat)| = 5 := by rw [abs_of_nonpos] <;> norm_num
  have habs3 : |(-(15 : Rat)/2)| = 15/2 := by rw [abs_of_nonpos] <;> norm_num
  refine ⟨?_, ?_, ?_, by decide⟩
  · -- constant series: zero years emitted
    have hsq : sqDevSum [(5 : Rat), 5, 5] = 0 := by norm_num [sqDevSum, npMean]
    have hdy : cusum_detect_years [5, 5, 5] [2022, 2023, 2024] = [] := by
      simp [cusum_detect_years, hsq]
    have hu : unique_series [⟨2022, "s", 5⟩, ⟨2023, "s", 5⟩, ⟨2024, "s", 5⟩] = ["s"] := rfl
    have hsig : (get_series [⟨2022, "s", 5⟩, ⟨2023, "s", 5⟩, ⟨2024, "s", 5⟩] "s").map
        (fun r => r.value) = [5, 5, 5] := rfl
    have hyrs : (get_series [⟨2022, "s", 5⟩, ⟨2023, "s", 5⟩, ⟨2024, "s", 5⟩] "s").map
        (fun r => r.year) = [2022, 2023, 2024] := rfl
    simp only [detect_cusum, hu, List.filterMap_cons, List.filterMap_nil, hsig, hyrs, hdy,
      List.length_cons, List.length_nil]
    norm_num [check_target_hit]
  · -- jump series: the single emitted year is 2024, from the cusum argmax
    have hmean : npMean [0, 0, 0, 10] = 5/2 := by norm_num [npMean]
    have hcent : ([(0 : Rat), 0, 0, 10].map (fun x => x - npMean [0, 0, 0, 10])) =
        [-5/2, -5/2, -5/2, 15/2] := by rw [hmean]; norm_num
    have hcus : np_cumsum [-(5 : Rat)/2, -5/2, -5/2, 15/2] = [-5/2, -5, -15/2, 0] := by
      norm_num [np_cumsum, cumsumFrom]
    have hmax : maxAbs [-(5 : Rat)/2, -5, -15/2, 0] = 15/2 := by
      simp only [maxAbs, List.map_cons, List.map_nil, habs1, habs2, habs3, abs_zero,
        List.foldr_cons, List.foldr_nil]
      norm_num [max_def]
    have hidx : np_argmax_abs [-(5 : Rat)/2, -5, -15/2, 0] = 2 := by
      simp only [np_argmax_abs, hmax, List.findIdx_cons, habs1, habs2, habs3, abs_zero]
      norm_num
    have hsq : sqDevSum [(0 : Rat), 0, 0, 10] ≠ 0 := by norm_num [sqDevSum, npMean]
    have hdy : cusum_detect_years [0, 0, 0, 10] [2022, 2023, 2024, 2025] = [2024] := by
      simp only [cusum_detect_years, hcent, hcus, hidx, if_neg hsq]
      rfl
    have hu : unique_series [⟨2022, "t", 0⟩, ⟨2023, "t", 0⟩, ⟨2024, "t", 0⟩, ⟨2025, "t", 10⟩] =
        ["t"] := rfl
    have hsig : (get_series
        [⟨2022, "t", 0⟩, ⟨2023, "t", 0⟩, ⟨2024, "t", 0⟩, ⟨2025, "t", 10⟩] "t").map
        (fun r => r.value) = [0, 0, 0, 10] := rfl
    have hyrs : (get_series
        [⟨2022, "t", 0⟩, ⟨2023, "t", 0⟩, ⟨2024, "t", 0⟩, ⟨2025, "t", 10⟩] "t").map
        (fun r => r.year) = [2022, 2023, 2024, 2025] := rfl
    have hht : check_target_hit 2025 1 [2024] = (true, some 2024) := rfl
    simp only [detect_cusum, hu, List.filterMap_cons, List.filterMap_nil, hsig, hyrs, hdy, hht,
      List.length_cons, List.length_nil]
    norm_num
  · -- the claim formula points at 2025 instead
    have hd1 : (([0, 0, 0, 10] : List Rat).zip ([0, 0, 0, 10] : List Rat).tail).map
        (fun p => p.2 - p.1) = [0, 0, 10] := by norm_num
    have hmax : maxAbs [(0 : Rat), 0, 10] = 10 := by
      simp only [maxAbs, List.map_cons, List.map_nil, abs_zero, List.foldr_cons, List.foldr_nil]
      norm_num [max_def, abs_of_nonneg]
    have hidx : np_argmax_abs [(0 : Rat), 0, 10] = 2 := by
      simp only [np_argmax_abs, hmax, List.findIdx_cons, abs_zero]
      norm_num [abs_of_nonneg]
    simp only [cusum_spec_year, hd1, hidx]
    rfl

/-- Witness for `cusum_emission` at `values = [0,0,0,10]`,
    `years = 2022..2025`. -/
theorem cusum_emission_witness :
    ([(0 : Rat), 0, 0, 10].length = ([2022, 2023, 2024, 2025] : List Int).length) ∧
    3 ≤ [(0 : Rat), 0, 0, 10].length ∧
    sqDevSum [(0 : Rat), 0, 0, 10] ≠ 0 ∧
    ∃ i, i < ([2022, 2023, 2024, 2025] : List Int).length ∧
      cusum_detect_years [(0 : Rat), 0, 0, 10] [2022, 2023, 2024, 2025] =
        [([2022, 2023, 2024, 2025] : List Int).getD i 0] ∧
      (∀ j, j < ([2022, 2023, 2024, 2025] : List Int).length →
        |(np_cumsum ([(0 : Rat), 0, 0, 10].map
            (fun x => x - npMean [(0 : Rat), 0, 0, 10]))).getD j 0| ≤
          |(np_cumsum ([(0 : Rat), 0, 0, 10].map
              (fun x => x - npMean [(0 : Rat), 0, 0, 10]))).getD i 0|) ∧
      (∀ j, j < i →
        |(np_cumsum ([(0 : Rat), 0, 0, 10].map
            (fun x => x - npMean [(0 : Rat), 0, 0, 10]))).getD j 0| <
          |(np_cumsum ([(0 : Rat), 0, 0, 10].map
              (fun x => x - npMean [(0 : Rat), 0, 0, 10]))).getD i 0|) :=
  ⟨by decide, by decide, by norm_num [sqDevSum, npMean],
    (cusum_emission [(0 : Rat), 0, 0, 10] [2022, 2023, 2024, 2025]
      (by decide) (by decide)).2 (by norm_num [sqDevSum, npMean])⟩

/-- C2 (amended): the `detect_ruptures` post-processing emits, for every
    returned breakpoint index `b` with `0 < b < n`, the year `year[b-1]`
    (the last index of the old regime, not `year[b]` as the claim states);
    an index equal to `n` (the end sentinel) is discarded and contributes
    no change year. -/
theorem ruptures_emit_characterization (bkps : List Nat) (years : List Int) :
    (ruptures_emit years.length bkps years =
      (bkps.filter (fun b => decide (0 < b) && decide (b < years.length))).map
        (fun b => years.getD (b - 1) 0)) ∧
    ruptures_emit years.length (years.length :: bkps) years =
      ruptures_emit years.length bkps years := by
  constructor
  · induction bkps with
    | nil => rfl
    | cons b bs ih =>
      by_cases hlt : b < years.length
      · by_cases hpos : 0 < b
        · have hble : b ≤ years.length := le_of_lt hlt
          have hb1 : b - 1 < years.length := by omega
          simp only [ruptures_emit, map_indices_to_years] at ih ⊢
          rw [List.filter_cons_of_pos (by simpa using hlt),
            List.filterMap_cons, List.filter_cons_of_pos (by simp [hpos, hlt]),
            if_pos ⟨hpos, hble⟩, List.get?_eq_getElem?, List.getElem?_eq_getElem hb1]
          simp only [List.map_cons, ih]
          congr 1
          simp [List.getD_eq_getElem?_getD, List.getElem?_eq_getElem hb1]
        · have hb0 : b = 0 := by omega
          subst hb0
          simp only [ruptures_emit, map_indices_to_years] at ih ⊢
          rw [List.filter_cons_of_pos (by simpa using hlt), List.filterMap_cons]
          simp only [Nat.lt_irrefl, false_and, if_false, List.filter_cons, decide_eq_true_eq]
          simpa using ih
      · simp only [ruptures_emit, map_indices_to_years] at ih ⊢
        rw [List.filter_cons_of_neg (by simpa using hlt),
          List.filter_cons_of_neg (by simp [hlt])]
        exact ih
  · have hnn : ¬ (years.length < years.length) := lt_irrefl _
    simp [ruptures_emit, List.filter_cons, hnn]

/-- C2 counterexample: with the segmentation oracle returning breakpoints
    `[2, 4]` on a 4-point series over 2022..2025, the code emits
    `year[1] = 2023` for the interior index `b = 2`, while the claim
    demands `year[2] = 2024`; the claimed year 2024 is not emitted at
    all.  (The sentinel index 4 = n is indeed discarded.) -/
theorem ruptures_claim_counterexample :
    (detect_ruptures (fun _ _ => .ok [2, 4]) "Ruptures_pelt_l2" 2025 1 3
        [⟨2022, "s", 1⟩, ⟨2023, "s", 1⟩, ⟨2024, "s", 5⟩, ⟨2025, "s", 5⟩]).map
        (fun r => r.detected_years) = [[2023]] ∧
    (2024 : Int) ∉ ([2023] : List Int) := by decide

theorem check_target_hit_fst (target tol : Int) (l : List Int) :
    (check_target_hit target tol l).1 = true ↔ ∃ y ∈ l, |y - target| ≤ tol := by
  induction l with
  | nil => simp [check_target_hit]
  | cons y ys ih =>
    by_cases h : |y - target| ≤ tol
    · simp [check_target_hit, h]
    · simp only [check_target_hit, if_neg h, ih, List.mem_cons]
      constructor
      · rintro ⟨z, hz, hzle⟩
        exact ⟨z, Or.inr hz, hzle⟩
      · rintro ⟨z, rfl | hz, hzle⟩
        · exact absurd hzle h
        · exact ⟨z, hz, hzle⟩

theorem check_target_hit_none (target tol : Int) (l : List Int) :
    (check_target_hit target tol l).2 = none ↔ ∀ y ∈ l, ¬ |y - target| ≤ tol := by
  induction l with
  | nil => simp [check_target_hit]
  | cons y ys ih =>
    by_cases h : |y - target| ≤ tol
    · simp [check_target_hit, h]
    · simp only [check_target_hit, if_neg h, ih, List.mem_cons]
      constructor
      · rintro hz z (rfl | hmem)
        · exact h
        · exact hz z hmem
      · intro hz z hmem
        exact hz z (Or.inr hmem)

theorem check_target_hit_some (target tol : Int) (l : List Int)
    (hsorted : l.Sorted (· ≤ ·)) (y : Int)
    (hy : (check_target_hit target tol l).2 = some y) :
    y ∈ l ∧ |y - target| ≤ tol ∧ ∀ z ∈ l, |z - target| ≤ tol → y ≤ z := by
  induction l with
  | nil => simp [check_target_hit] at hy
  | cons a as ih =>
    by_cases h : |a - target| ≤ tol
    · simp only [check_target_hit, if_pos h, Option.some.injEq] at hy
      subst hy
      exact ⟨List.mem_cons_self _ _, h, fun z hz _ => by
        rcases List.mem_cons.mp hz with rfl | hmem
        · exact le_refl _
        · exact (List.sorted_cons.mp hsorted).1 z hmem⟩
    · simp only [check_target_hit, if_neg h] at hy
      rcases ih (List.sorted_cons.mp hsorted).2 hy with ⟨hmem, hle, hmin⟩
      refine ⟨List.mem_cons_of_mem _ hmem, hle, ?_⟩
      intro z hz hzle
      rcases List.mem_cons.mp hz with rfl | hzmem
      · exact absurd hzle h
      · exact hmin z hzmem hzle

/-- C3: `hit_target` is true exactly when some detected year lies within
    `tolerance` of `target_year`; `hit_year` is absent exactly when no
    year qualifies, and on an ascending list of detected years it is the
    least qualifying year (the first in ascending order).  At
    `target_year = 2025`, `tolerance = 1`, detected years 2024 and 2026
    hit while 2023 and 2027 do not. -/
theorem check_target_hit_spec (target tol : Int) (l : List Int) :
    ((check_target_hit target tol l).1 = true ↔ ∃ y ∈ l, |y - target| ≤ tol) ∧
    ((check_target_hit target tol l).2 = none ↔ ∀ y ∈ l, ¬ |y - target| ≤ tol) ∧
    (l.Sorted (· ≤ ·) → ∀ y, (check_target_hit target tol l).2 = some y →
      y ∈ l ∧ |y - target| ≤ tol ∧ ∀ z ∈ l, |z - target| ≤ tol → y ≤ z) ∧
    (check_target_hit 2025 1 [2024]).1 = true ∧
    (check_target_hit 2025 1 [2026]).1 = true ∧
    (check_target_hit 2025 1 [2023]).1 = false ∧
    (check_target_hit 2025 1 [2027]).1 = false :=
  ⟨check_target_hit_fst target tol l, check_target_hit_none target tol l,
    fun hs y hy => check_target_hit_some target tol l hs y hy,
    by decide, by decide, by decide, by decide⟩

/-- Witness for `check_target_hit_spec` on the ascending list
    `[2023, 2026]` with `target_year = 2025`, `tolerance = 1`: the scan
    skips 2023 and returns 2026, the least qualifying year. -/
theorem check_target_hit_spec_witness :
    ([2023, 2026] : List Int).Sorted (· ≤ ·) ∧
    ((2026 : Int) ∈ ([2023, 2026] : List Int) ∧ |(2026 : Int) - 2025| ≤ 1 ∧
      ∀ z ∈ ([2023, 2026] : List Int), |z - 2025| ≤ 1 → (2026 : Int) ≤ z) :=
  ⟨by simp, (check_target_hit_spec 2025 1 [2023, 2026]).2.2.1 (by simp) 2026 (by decide)⟩

theorem mem_map_indices_to_years {idxs : List Nat} {years : List Int} {y : Int} :
    y ∈ map_indices_to_years idxs years ↔
      ∃ idx ∈ idxs, 0 < idx ∧ idx ≤ years.length ∧ years.getD (idx - 1) 0 = y := by
  unfold map_indices_to_years
  rw [List.mem_filterMap]
  constructor
  · rintro ⟨idx, hidx, hsome⟩
    by_cases hg : 0 < idx ∧ idx ≤ years.length
    · rw [if_pos hg] at hsome
      refine ⟨idx, hidx, hg.1, hg.2, ?_⟩
      rw [List.getD_eq_getElem?_getD, ← List.get?_eq_getElem?, hsome]
      rfl
    · rw [if_neg hg] at hsome
      cases hsome
  · rintro ⟨idx, hidx, hpos, hle, hget⟩
    refine ⟨idx, hidx, ?_⟩
    rw [if_pos ⟨hpos, hle⟩]
    have hlt : idx - 1 < years.length := by omega
    rw [List.get?_eq_getElem?, List.getElem?_eq_getElem hlt]
    rw [List.getD_eq_getElem?_getD, List.getElem?_eq_getElem hlt] at hget
    simpa using hget

/-- C4 (amended): the Bayesian detector thresholds the marginal
    changepoint probabilities at the fixed constant 0.3 over the interior
    positions, and emits `year[i-1]` for every interior index `i` whose
    marginal probability exceeds 0.3 — possibly zero and possibly several
    years; there is no logistic transform of a likelihood gain and no
    configurable probability threshold defaulting to 0.5. -/
theorem bayes_emit_mem (probs : List Rat) (years : List Int)
    (hlen : probs.length = years.length) (y : Int) :
    y ∈ bayes_emit probs years ↔
      ∃ i, 0 < i ∧ i + 1 < probs.length ∧ (3 : Rat) / 10 < probs.getD i 0 ∧
        y = years.getD (i - 1) 0 := by
  have hintlen : ((probs.drop 1).dropLast).length = probs.length - 2 := by
    simp only [List.length_dropLast, List.length_drop]
    omega
  have hintget : ∀ i, i < ((probs.drop 1).dropLast).length →
      ((probs.drop 1).dropLast).getD i 0 = probs.getD (i + 1) 0 := by
    intro i hi
    have hi2 : i < (probs.drop 1).length - 1 := by
      simpa [List.length_dropLast] using hi
    have hi3 : i < (probs.drop 1).length := by omega
    have hi4 : i + 1 < probs.length := by
      simp only [List.length_drop] at hi3
      omega
    rw [List.getD_eq_getElem?_getD, List.getElem?_eq_getElem hi,
      List.getD_eq_getElem?_getD, List.getElem?_eq_getElem hi4]
    simp only [List.getElem_dropLast, List.getElem_drop, Option.getD_some]
    congr 1
    omega
  unfold bayes_emit
  rw [mem_map_indices_to_years]
  constructor
  · rintro ⟨idx, hidx, hpos, hle, hget⟩
    rcases List.mem_map.mp hidx with ⟨i0, hi0, rfl⟩
    rcases List.mem_filter.mp hi0 with ⟨hi0r, hi0p⟩
    have hi0lt : i0 < ((probs.drop 1).dropLast).length := List.mem_range.mp hi0r
    have hip : (3 : Rat) / 10 < ((probs.drop 1).dropLast).getD i0 0 := by
      simpa using hi0p
    refine ⟨i0 + 1, by omega, by omega, ?_, ?_⟩
    · rw [← hintget i0 hi0lt]
      exact hip
    · simpa using hget.symm
  · rintro ⟨i, hipos, hilt, hiprob, rfl⟩
    refine ⟨i, ?_, hipos, by omega, by simp⟩
    refine List.mem_map.mpr ⟨i - 1, ?_, by omega⟩
    refine List.mem_filter.mpr ⟨List.mem_range.mpr (by omega), ?_⟩
    have hi1 : i - 1 < ((probs.drop 1).dropLast).length := by omega
    rw [decide_eq_true_eq, hintget (i - 1) hi1]
    have : i - 1 + 1 = i := by omega
    rw [this]
    exact hiprob

/-- C4 counterexample: on the marginal-probability vector
    `[0, 0.4, 0.35, 0]` (no entry above 0.5) over 2022..2025, the code
    emits two detected years, 2022 and 2023 — not "the single detected
    year `year[t*]` if and only if the probability exceeds 0.5":
    emission happens below 0.5, and more than one year can be emitted. -/
theorem bayes_claim_counterexample :
    bayes_emit [0, 4/10, 35/100, 0] [2022, 2023, 2024, 2025] = [2022, 2023] ∧
    ([2022, 2023] : List Int).length ≠ 1 ∧
    ∀ p ∈ ([0, 4/10, 35/100, 0] : List Rat), p ≤ 5/10 := by
  refine ⟨?_, by decide, ?_⟩
  · have hdrop : (([(0 : Rat), 4/10, 35/100, 0].drop 1).dropLast) = [4/10, 35/100] := rfl
    have hc0 : decide ((3 : Rat)/10 < ([(4 : Rat)/10, 35/100]).getD 0 0) = true := by
      norm_num
    have hc1 : decide ((3 : Rat)/10 < ([(4 : Rat)/10, 35/100]).getD 1 0) = true := by
      norm_num
    have hfil : (List.range ([(4 : Rat)/10, 35/100]).length).filter
        (fun i => decide ((3 : Rat)/10 < ([(4 : Rat)/10, 35/100]).getD i 0)) = [0, 1] := by
      simp only [List.length_cons, List.length_nil]
      rw [show List.range 2 = [0, 1] from rfl]
      simp only [List.filter_cons, hc0, hc1, List.filter_nil, if_true]
    simp only [bayes_emit, hdrop, hfil]
    rfl
  · intro p hp
    simp only [List.mem_cons, List.not_mem_nil, or_false] at hp
    rcases hp with rfl | rfl | rfl | rfl <;> norm_num

/-- Witness for `bayes_emit_mem`: probabilities `[0, 0.6, 0]` over
    2022..2024 emit the year 2022 (`years[i-1]` for the interior index
    `i = 1`). -/
theorem bayes_emit_mem_witness :
    ([0, 6/10, 0] : List Rat).length = ([2022, 2023, 2024] : List Int).length ∧
    (2022 : Int) ∈ bayes_emit [0, 6/10, 0] [2022, 2023, 2024] :=
  ⟨by decide,
    (bayes_emit_mem [0, 6/10, 0] [2022, 2023, 2024] (by decide) 2022).mpr
      ⟨1, by norm_num, by norm_num, by norm_num, by norm_num⟩⟩

theorem interp_neg_iff (d : Real) :
    interpret_effect_size d = "Không đáng kể" ↔ |d| < 2 / 10 := by
  unfold interpret_effect_size
  split_ifs with h1 h2 h3
  · simp [h1]
  · exact ⟨fun h => absurd h (by decide), fun h => absurd h h1⟩
  · exact ⟨fun h => absurd h (by decide), fun h => absurd h h1⟩
  · exact ⟨fun h => absurd h (by decide), fun h => absurd h h1⟩

theorem interp_weak_iff (d : Real) :
    interpret_effect_size d = "Yếu (Weak)" ↔ 2 / 10 ≤ |d| ∧ |d| < 5 / 10 := by
  unfold interpret_effect_size
  split_ifs with h1 h2 h3
  · exact ⟨fun h => absurd h (by decide), fun h => absurd h.1 (not_le.mpr h1)⟩
  · simp [not_lt.mp h1, h2]
  · exact ⟨fun h => absurd h (by decide), fun h => absurd h.2 h2⟩
  · exact ⟨fun h => absurd h (by decide), fun h => absurd h.2 h2⟩

theorem interp_medium_iff (d : Real) :
    interpret_effect_size d = "Vừa (Medium)" ↔ 5 / 10 ≤ |d| ∧ |d| < 8 / 10 := by
  unfold interpret_effect_size
  split_ifs with h1 h2 h3
  · exact ⟨fun h => absurd h (by decide),
      fun h => absurd h.1 (not_le.mpr (h1.trans (by norm_num)))⟩
  · exact ⟨fun h => absurd h (by decide), fun h => absurd h.1 (not_le.mpr h2)⟩
  · simp [not_lt.mp h2, h3]
  · exact ⟨fun h => absurd h (by decide), fun h => absurd h.2 h3⟩

theorem interp_strong_iff (d : Real) :
    interpret_effect_size d = "Mạnh (Strong)" ↔ 8 / 10 ≤ |d| := by
  unfold interpret_effect_size
  split_ifs with h1 h2 h3
  · exact ⟨fun h => absurd h (by decide),
      fun h => absurd h (not_le.mpr (h1.trans (by norm_num)))⟩
  · exact ⟨fun h => absurd h (by decide),
      fun h => absurd h (not_le.mpr (h2.trans (by norm_num)))⟩
  · exact ⟨fun h => absurd h (by decide), fun h => absurd h (not_le.mpr h3)⟩
  · simp [not_lt.mp h3]

/-- C7: the magnitude classification is the strict partition of `|d|` at
    0.2, 0.5 and 0.8 into Negligible ("Không đáng kể"), Weak, Medium and
    Strong; in particular `d = 0.15, 0.3, 0.6, 1.2` fall into the four
    classes in order. -/
theorem interpret_effect_size_partition (d : Real) :
    (interpret_effect_size d = "Không đáng kể" ↔ |d| < 2 / 10) ∧
    (interpret_effect_size d = "Yếu (Weak)" ↔ 2 / 10 ≤ |d| ∧ |d| < 5 / 10) ∧
    (interpret_effect_size d = "Vừa (Medium)" ↔ 5 / 10 ≤ |d| ∧ |d| < 8 / 10) ∧
    (interpret_effect_size d = "Mạnh (Strong)" ↔ 8 / 10 ≤ |d|) ∧
    interpret_effect_size (15 / 100) = "Không đáng kể" ∧
    interpret_effect_size (3 / 10) = "Yếu (Weak)" ∧
    interpret_effect_size (6 / 10) = "Vừa (Medium)" ∧
    interpret_effect_size (12 / 10) = "Mạnh (Strong)" :=
  ⟨interp_neg_iff d, interp_weak_iff d, interp_medium_iff d, interp_strong_iff d,
    (interp_neg_iff _).mpr (by rw [abs_of_nonneg (by norm_num)]; norm_num),
    (interp_weak_iff _).mpr (by rw [abs_of_nonneg (by norm_num)]; norm_num),
    (interp_medium_iff _).mpr (by rw [abs_of_nonneg (by norm_num)]; norm_num),
    (interp_strong_iff _).mpr (by rw [abs_of_nonneg (by norm_num)]; norm_num)⟩

/-- C6 (amended): whenever the pre segment has at least two observations
    (and the post segment is nonempty), the effect size branches on the
    size of the post segment exactly as the claim states; the claim fails
    as stated because a one-observation pre segment short-circuits to 0. -/
theorem cohens_d_refines_spec (g1 g2 : List Rat)
    (h1 : 2 ≤ g1.length) (h2 : 1 ≤ g2.length) :
    cohens_d g1 g2 = cohens_d_spec g1 g2 := by
  simp only [cohens_d, cohens_d_spec]
  rw [if_neg (by omega : ¬ g1.length < 2)]

/-- Witness for `cohens_d_refines_spec` at `pre = [6, 6.1, 6.2]`,
    `post = [4.5]` (the one-sample branch of the spec example). -/
theorem cohens_d_refines_spec_witness :
    2 ≤ ([6, 61/10, 62/10] : List Rat).length ∧
    1 ≤ ([9/2] : List Rat).length ∧
    cohens_d [6, 61/10, 62/10] [9/2] = cohens_d_spec [6, 61/10, 62/10] [9/2] :=
  ⟨by decide, by decide, cohens_d_refines_spec _ _ (by decide) (by decide)⟩

/-- C9: a one-observation pre segment forces effect size 0 and magnitude
    "Không đáng kể" (Negligible), however large the post-pre mean
    difference. -/
theorem one_point_pre_guard (g1 g2 : List Rat)
    (h1 : g1.length = 1) (h2 : g2 ≠ []) :
    cohens_d g1 g2 = 0 ∧
    interpret_effect_size (cohens_d g1 g2) = "Không đáng kể" := by
  have hd : cohens_d g1 g2 = 0 := by
    simp only [cohens_d, h1]
    rw [if_pos (by omega : (1 : Nat) < 2)]
  exact ⟨hd, by rw [hd]; exact (interp_neg_iff 0).mpr (by norm_num)⟩

/-- Witness for `one_point_pre_guard`: `pre = [5]`, `post = [100]` — a
    mean jump of 95 still classifies as Negligible. -/
theorem one_point_pre_guard_witness :
    ([5] : List Rat).length = 1 ∧ ([100] : List Rat) ≠ [] ∧
    (cohens_d [5] [100] = 0 ∧
      interpret_effect_size (cohens_d [5] [100]) = "Không đáng kể") :=
  ⟨by decide, by decide, one_point_pre_guard [5] [100] (by decide) (by decide)⟩

/-- C5: `analyze_impact` consumes only rows with `hit_target = true`; a
    hit row whose pre or post partition at `hit_year` is empty yields no
    `ImpactRecord` (and no error — the function is total); and every
    emitted record comes from a hit row whose two partitions are both
    nonempty. -/
theorem impact_processing (tt1 : List Rat → Rat → Rat) (tt2 : List Rat → List Rat → Rat)
    (data : List DataRow) (results : List DetectionRow) :
    (analyze_impact tt1 tt2 data results =
      analyze_impact tt1 tt2 data (results.filter (fun r => r.hit_target))) ∧
    (∀ row : DetectionRow, ∀ cp : Int, row.hit_target = true → row.hit_year = some cp →
      (preVals data row.series_id cp = [] ∨ postVals data row.series_id cp = []) →
      impact_of_row tt1 tt2 data row = none) ∧
    (∀ rec ∈ analyze_impact tt1 tt2 data results,
      ∃ row ∈ results, row.hit_target = true ∧ row.hit_year = some rec.break_point ∧
        rec.series_id = row.series_id ∧
        preVals data row.series_id rec.break_point ≠ [] ∧
        postVals data row.series_id rec.break_point ≠ []) := by
  refine ⟨?_, ?_, ?_⟩
  · unfold analyze_impact
    rw [List.filter_filter]
    simp [Bool.and_self]
  · intro row cp hhit hy hempty
    simp only [impact_of_row, hy]
    by_cases hs : get_series data row.series_id = []
    · rw [if_pos hs]
    · rw [if_neg hs, if_pos hempty]
  · intro rec hrec
    unfold analyze_impact at hrec
    rcases List.mem_filterMap.mp hrec with ⟨row, hrowmem, hsome⟩
    rcases List.mem_filter.mp hrowmem with ⟨hrows, hhit⟩
    cases hy : row.hit_year with
    | none => simp [impact_of_row, hy] at hsome
    | some cp =>
      simp only [impact_of_row, hy] at hsome
      by_cases hs : get_series data row.series_id = []
      · rw [if_pos hs] at hsome; cases hsome
      · rw [if_neg hs] at hsome
        by_cases hpp : preVals data row.series_id cp = [] ∨ postVals data row.series_id cp = []
        · rw [if_pos hpp] at hsome; cases hsome
        · rw [if_neg hpp] at hsome
          push_neg at hpp
          have hreceq := (Option.some.injEq _ _).mp hsome
          refine ⟨row, hrows, by simpa using hhit, ?_, ?_, ?_, ?_⟩
          · rw [← hreceq]; exact hy
          · rw [← hreceq]
          · rw [← hreceq]; exact hpp.1
          · rw [← hreceq]; exact hpp.2

/-- Witness for `impact_processing`: a single hit row at break year 2025
    on a series whose only observation is in 2025 (empty pre partition)
    produces no record. -/
theorem impact_processing_witness :
    (⟨"s", "CUSUM_Mean", [2025], true, some 2025⟩ : DetectionRow).hit_target = true ∧
    preVals [⟨2025, "s", 7⟩] "s" 2025 = [] ∧
    impact_of_row (fun _ _ => 0) (fun _ _ => 0) [⟨2025, "s", 7⟩]
      ⟨"s", "CUSUM_Mean", [2025], true, some 2025⟩ = none :=
  ⟨rfl, by decide,
    (impact_processing (fun _ _ => 0) (fun _ _ => 0) [⟨2025, "s", 7⟩]
        [⟨"s", "CUSUM_Mean", [2025], true, some 2025⟩]).2.1
      ⟨"s", "CUSUM_Mean", [2025], true, some 2025⟩ 2025 rfl rfl (Or.inl (by decide))⟩

/-- C10: a qualifying hit whose pre-segment mean is exactly 0 still emits
    an `ImpactRecord`, and its `delta_pct` — a division by `mean_pre` with
    no zero guard — is the non-finite float, modelled as `none`. -/
theorem impact_delta_nonfinite (tt1 : List Rat → Rat → Rat) (tt2 : List Rat → List Rat → Rat)
    (data : List DataRow) (row : DetectionRow) (cp : Int)
    (h1 : row.hit_target = true) (h2 : row.hit_year = some cp)
    (h3 : preVals data row.series_id cp ≠ []) (h4 : postVals data row.series_id cp ≠ [])
    (h5 : npMean (preVals data row.series_id cp) = 0) :
    ∃ rec, impact_of_row tt1 tt2 data row = some rec ∧ rec.delta_pct = none := by
  have hs : get_series data row.series_id ≠ [] := by
    intro h
    exact h3 (by simp [preVals, h])
  have hpp : ¬ (preVals data row.series_id cp = [] ∨ postVals data row.series_id cp = []) := by
    push_neg
    exact ⟨h3, h4⟩
  simp only [impact_of_row, h2]
  rw [if_neg hs, if_neg hpp]
  exact ⟨_, rfl, by simp [h5]⟩

/-- Witness for `impact_delta_nonfinite`: series `(2023, -1), (2024, 1),
    (2025, 7)` with a hit at 2025 — the pre segment `[-1, 1]` has mean 0,
    and the `delta_pct` of the emitted record is non-finite. -/
theorem impact_delta_nonfinite_witness :
    (⟨"s", "CUSUM_Mean", [2025], true, some 2025⟩ : DetectionRow).hit_target = true ∧
    npMean (preVals [⟨2023, "s", -1⟩, ⟨2024, "s", 1⟩, ⟨2025, "s", 7⟩] "s" 2025) = 0 ∧
    ∃ rec, impact_of_row (fun _ _ => 0) (fun _ _ => 0)
        [⟨2023, "s", -1⟩, ⟨2024, "s", 1⟩, ⟨2025, "s", 7⟩]
        ⟨"s", "CUSUM_Mean", [2025], true, some 2025⟩ = some rec ∧
      rec.delta_pct = none :=
  ⟨rfl, by norm_num [preVals, npMean, get_series, sortByYear, insertByYear],
    impact_delta_nonfinite (fun _ _ => 0) (fun _ _ => 0)
      [⟨2023, "s", -1⟩, ⟨2024, "s", 1⟩, ⟨2025, "s", 7⟩]
      ⟨"s", "CUSUM_Mean", [2025], true, some 2025⟩ 2025 rfl rfl
      (by decide) (by decide)
      (by norm_num [preVals, npMean, get_series, sortByYear, insertByYear])⟩

theorem length_filterMap_eq_length_filter {α β : Type} (f : α → Option β) (p : α → Bool)
    (l : List α) (h : ∀ a ∈ l, (f a).isSome = p a) :
    (l.filterMap f).length = (l.filter p).length := by
  induction l with
  | nil => rfl
  | cons a as ih =>
    have ha := h a (List.mem_cons_self _ _)
    have htail := ih (fun x hx => h x (List.mem_cons_of_mem _ hx))
    cases hfa : f a with
    | none =>
      rw [hfa] at ha
      simp only [List.filterMap_cons, hfa, List.filter_cons, ← ha, Option.isSome_none]
      simpa using htail
    | some b =>
      rw [hfa] at ha
      simp only [List.filterMap_cons, hfa, List.filter_cons, ← ha, Option.isSome_some]
      simpa using htail

/-- C8: per-(series, algorithm) failure isolation.  For `detect_ruptures`
    (whose library call sits in a per-series `try`), a series whose
    oracle call succeeds contributes its row no matter how the oracle
    behaves on any other series, and a series whose oracle call raises
    contributes no row at all — the rest of the batch is unaffected.  For
    `detect_cusum` (a total per-series computation), every series with at
    least 3 points contributes exactly one row, so the batch always
    completes. -/
theorem detector_failure_isolation
    (algoF : String → List Rat → Except String (List Nat)) (algoName : String)
    (target tol : Int) (width : Nat) (data : List DataRow) (sid : String) :
    (∀ bkps : List Nat, sid ∈ unique_series data →
      ¬ ((get_series data sid).map (fun r => r.value)).length < width →
      algoF sid ((get_series data sid).map (fun r => r.value)) = .ok bkps →
      ruptures_row target tol algoName sid bkps
          ((get_series data sid).map (fun r => r.value)).length
          ((get_series data sid).map (fun r => r.year)) ∈
        detect_ruptures algoF algoName target tol width data) ∧
    (∀ e : String, algoF sid ((get_series data sid).map (fun r => r.value)) = .error e →
      ∀ row ∈ detect_ruptures algoF algoName target tol width data, row.series_id ≠ sid) ∧
    (detect_cusum target tol data).length =
      ((unique_series data).filter
        (fun s => decide (3 ≤ ((get_series data s).map (fun r => r.value)).length))).length := by
  refine ⟨?_, ?_, ?_⟩
  · intro bkps hmem hw hok
    unfold detect_ruptures
    refine List.mem_filterMap.mpr ⟨sid, hmem, ?_⟩
    simp only [if_neg hw, hok]
  · intro e herr row hrow
    unfold detect_ruptures at hrow
    rcases List.mem_filterMap.mp hrow with ⟨s, hs, hfs⟩
    simp only [] at hfs
    by_cases heq : s = sid
    · subst heq
      by_cases hw : ((get_series data s).map (fun r => r.value)).length < width
      · rw [if_pos hw] at hfs
        cases hfs
      · rw [if_neg hw, herr] at hfs
        cases hfs
    · intro hser
      apply heq
      by_cases hw : ((get_series data s).map (fun r => r.value)).length < width
      · rw [if_pos hw] at hfs
        cases hfs
      · rw [if_neg hw] at hfs
        cases hok : algoF s ((get_series data s).map (fun r => r.value)) with
        | error e2 => rw [hok] at hfs; cases hfs
        | ok bk =>
          rw [hok] at hfs
          have hroweq := (Option.some.injEq _ _).mp hfs
          rw [← hroweq] at hser
          exact hser ▸ rfl
  · unfold detect_cusum
    apply length_filterMap_eq_length_filter
    intro a ha
    by_cases h3 : ((get_series data a).map (fun r => r.value)).length < 3
    · simp only [if_pos h3, Option.isSome_none]
      symm
      rw [decide_eq_false]
      omega
    · simp only [if_neg h3, Option.isSome_some]
      symm
      rw [decide_eq_true_eq]
      omega

/-- Witness for `detector_failure_isolation`: two eligible series; the
    oracle raises on series "a" and succeeds on series "b" — "b" still
    gets its row and "a" contributes none. -/
theorem detector_failure_isolation_witness :
    ("b" ∈ unique_series
        [⟨2022, "a", 1⟩, ⟨2023, "a", 2⟩, ⟨2024, "a", 3⟩,
         ⟨2022, "b", 1⟩, ⟨2023, "b", 1⟩, ⟨2024, "b", 5⟩]) ∧
    (ruptures_row 2025 1 "Ruptures_pelt_l2" "b" [1]
        ((get_series
            [⟨2022, "a", 1⟩, ⟨2023, "a", 2⟩, ⟨2024, "a", 3⟩,
             ⟨2022, "b", 1⟩, ⟨2023, "b", 1⟩, ⟨2024, "b", 5⟩] "b").map
          (fun r => r.value)).length
        ((get_series
            [⟨2022, "a", 1⟩, ⟨2023, "a", 2⟩, ⟨2024, "a", 3⟩,
             ⟨2022, "b", 1⟩, ⟨2023, "b", 1⟩, ⟨2024, "b", 5⟩] "b").map
          (fun r => r.year)) ∈
      detect_ruptures
        (fun s _ => if s = "a" then .error "fail" else .ok [1])
        "Ruptures_pelt_l2" 2025 1 3
        [⟨2022, "a", 1⟩, ⟨2023, "a", 2⟩, ⟨2024, "a", 3⟩,
         ⟨2022, "b", 1⟩, ⟨2023, "b", 1⟩, ⟨2024, "b", 5⟩]) ∧
    (∀ row ∈ detect_ruptures
        (fun s _ => if s = "a" then .error "fail" else .ok [1])
        "Ruptures_pelt_l2" 2025 1 3
        [⟨2022, "a", 1⟩, ⟨2023, "a", 2⟩, ⟨2024, "a", 3⟩,
         ⟨2022, "b", 1⟩, ⟨2023, "b", 1⟩, ⟨2024, "b", 5⟩],
      row.series_id ≠ "a") :=
  ⟨by decide,
    (detector_failure_isolation
        (fun s _ => if s = "a" then .error "fail" else .ok [1])
        "Ruptures_pelt_l2" 2025 1 3
        [⟨2022, "a", 1⟩, ⟨2023, "a", 2⟩, ⟨2024, "a", 3⟩,
         ⟨2022, "b", 1⟩, ⟨2023, "b", 1⟩, ⟨2024, "b", 5⟩] "b").1
      [1] (by decide) (by decide) rfl,
    (detector_failure_isolation
        (fun s _ => if s = "a" then .error "fail" else .ok [1])
        "Ruptures_pelt_l2" 2025 1 3
        [⟨2022, "a", 1⟩, ⟨2023, "a", 2⟩, ⟨2024, "a", 3⟩,
         ⟨2022, "b", 1⟩, ⟨2023, "b", 1⟩, ⟨2024, "b", 5⟩] "a").2.1
      "fail" rfl⟩

/-- C6 counterexample: for `pre = [1]` (one observation), `post = [1,2,3]`,
    the guard in the code returns effect size 0, while the pooled formula of the claim gives 1, namely
    `(2 - 1) / sqrt(((1-1)*var_pre + 2*1)/2)`. -/
theorem cohens_d_claim_counterexample :
    cohens_d [1] [1, 2, 3] = 0 ∧ cohens_d_spec [1] [1, 2, 3] = 1 ∧ (0 : Real) ≠ 1 := by
  refine ⟨?_, ?_, by norm_num⟩
  · simp only [cohens_d, List.length_cons, List.length_nil]
    rw [if_pos (by omega : 0 + 1 < 2)]
  · have hv1 : sampleVar [1] = 0 := by
      norm_num [sampleVar, npMean]
    have hv2 : sampleVar [1, 2, 3] = 1 := by
      norm_num [sampleVar, npMean]
    have hm1 : npMean [1] = 1 := by norm_num [npMean]
    have hm2 : npMean [1, 2, 3] = 2 := by norm_num [npMean]
    simp only [cohens_d_spec, List.length_cons, List.length_nil, hv1, hv2, hm1, hm2]
    rw [if_neg (by omega : ¬ (2 + 1 = 1))]
    norm_num [Real.sqrt_one]
